import Mathlib

/-!
Shallow embedding of the core of `streamlit_app.py` (credit-card customer
segmentation): the log(1+x) feature transform, the per-cluster analysis
(`load_data_and_analyze_clusters`, lines 31-78) and the segment decision rule
(`create_cluster_description`, lines 80-227).

Numeric values carried by the data are modelled as rationals (every finite
float is a rational, and all comparisons in the decision rule are decidable
over ℚ); the only irrational production is `np.log`, modelled over ℝ.
-/

/-- The 17 feature columns of the dataset after dropping CUST_ID
(source lines 38, 271-289). -/
inductive FieldName where
  | BALANCE
  | BALANCE_FREQUENCY
  | PURCHASES
  | ONEOFF_PURCHASES
  | INSTALLMENTS_PURCHASES
  | CASH_ADVANCE
  | PURCHASES_FREQUENCY
  | ONEOFF_PURCHASES_FREQUENCY
  | PURCHASES_INSTALLMENTS_FREQUENCY
  | CASH_ADVANCE_FREQUENCY
  | CASH_ADVANCE_TRX
  | PURCHASES_TRX
  | CREDIT_LIMIT
  | PAYMENTS
  | MINIMUM_PAYMENTS
  | PRC_FULL_PAYMENT
  | TENURE
  deriving DecidableEq

/-- A row of the dataset, or a vector of per-cluster means.  The pandas Series
passed to `create_cluster_description` additionally carries a `cluster_id`
entry (line 59), which the decision rule never reads, so it is omitted here. -/
abbrev FeatureVector := FieldName → ℚ

/-- The six derived predicates, source lines 84-89.  The source computes all
six as Python booleans at the top of `create_cluster_description`;
`high_balance` and `high_credit_limit` are computed but never read by any
branch.  They are stated as decidable propositions over ℚ. -/
abbrev high_balance (means : FeatureVector) : Prop :=
  means FieldName.BALANCE > 1000

/-- Source line 85: `means[PURCHASES] > 1000`. -/
abbrev high_purchases (means : FeatureVector) : Prop :=
  means FieldName.PURCHASES > 1000

/-- Source line 86: `means[PURCHASES_FREQUENCY] > 0.5`. -/
abbrev high_frequency (means : FeatureVector) : Prop :=
  means FieldName.PURCHASES_FREQUENCY > 0.5

/-- Source line 87: `means[CASH_ADVANCE] > 500`. -/
abbrev uses_cash_advance (means : FeatureVector) : Prop :=
  means FieldName.CASH_ADVANCE > 500

/-- Source line 88: `means[CREDIT_LIMIT] > 5000`. -/
abbrev high_credit_limit (means : FeatureVector) : Prop :=
  means FieldName.CREDIT_LIMIT > 5000

/-- Source line 89: `means[PRC_FULL_PAYMENT] > 0.3`. -/
abbrev pays_full (means : FeatureVector) : Prop :=
  means FieldName.PRC_FULL_PAYMENT > 0.3

/-- The record returned by each branch of `create_cluster_description`.
`name` and `key_features` are the literal strings of the source.  The long
`description` narrative of each branch is a fixed template string
`.format`-ted with a branch-specific list of means values; the template text
is constant per branch, so the rendered description is determined by the
branch together with `descr_args`, the list of numbers passed to `.format`
(in source order). -/
structure ClusterProfile where
  name : String
  descr_args : List ℚ
  key_features : List String
  deriving DecidableEq

/-- `create_cluster_description(cluster_id, means)`, source lines 80-227.
The branch structure is exactly that of the source: `if cluster_id == 0: ... else:`,
so every cluster id other than 0 takes the second (comment says
`# cluster_id == 1`) branch table. -/
def create_cluster_description (cluster_id : ℤ) (means : FeatureVector) :
    ClusterProfile :=
  if cluster_id = 0 then
    if high_purchases means ∧ high_frequency means then
      if pays_full means then
        { name := "Активные платежеспособные клиенты"
          descr_args := [means FieldName.PURCHASES_FREQUENCY,
            means FieldName.PURCHASES, means FieldName.PRC_FULL_PAYMENT]
          key_features := ["Высокая активность", "Ответственные платежи",
            "Высокий оборот"] }
      else
        { name := "Активные клиенты с рассрочкой"
          descr_args := [means FieldName.PURCHASES_FREQUENCY,
            means FieldName.PURCHASES, means FieldName.BALANCE]
          key_features := ["Высокая активность", "Использование рассрочки",
            "Регулярные покупки"] }
    else
      { name := "Умеренные пользователи"
        descr_args := [means FieldName.PURCHASES_FREQUENCY,
          means FieldName.PURCHASES]
        key_features := ["Умеренная активность", "Стабильное использование",
          "Регулярные платежи"] }
  else
    if uses_cash_advance means ∧ ¬high_purchases means then
      { name := "Клиенты с денежными авансами"
        descr_args := [means FieldName.CASH_ADVANCE,
          means FieldName.PURCHASES_FREQUENCY,
          means FieldName.CASH_ADVANCE_FREQUENCY, means FieldName.CREDIT_LIMIT]
        key_features := ["Денежные авансы", "Низкая активность покупок",
          "Требует внимания"] }
    else if ¬high_purchases means ∧ ¬high_frequency means then
      { name := "Малоактивные клиенты"
        descr_args := [means FieldName.PURCHASES_FREQUENCY,
          means FieldName.PURCHASES, means FieldName.BALANCE]
        key_features := ["Низкая активность", "Минимальное использование",
          "Требует активации"] }
    else
      { name := "Клиенты с особым поведением"
        descr_args := []
        key_features := ["Особое поведение", "Требует анализа"] }

/-! ### Cluster analysis (`load_data_and_analyze_clusters`, lines 31-78)

The CSV loading, row cleaning (lines 35-40) and the external
scaler → pca → kmeans pipeline (lines 52-56) are out-of-scope collaborators;
the analysis is therefore embedded over its true input: the cleaned raw rows,
each already paired with the cluster id predicted for it (line 59 attaches
exactly this pairing as the `cluster_id` column). -/

/-- `df[df.cluster_id == cluster_id]` restricted back to the feature
columns (line 65). -/
def cluster_rows (rows : List (FeatureVector × ℤ)) (cluster_id : ℤ) :
    List FeatureVector :=
  (rows.filter (fun r => r.2 == cluster_id)).map Prod.fst

/-- `cluster_data.mean()` (line 66): arithmetic mean of one column over the
group.  pandas yields NaN on an empty group; NaN compares false under every
strict `>` of the decision rule, exactly as the junk value `sum / 0 = 0`
produced here does, so the embedded decision rule agrees with the source on
empty groups. -/
def column_mean (data : List FeatureVector) (f : FieldName) : ℚ :=
  (data.map (fun v => v f)).sum / data.length

/-- One value of the `cluster_analysis` dict (lines 71-76). -/
structure ClusterInfo where
  means : FeatureVector
  description : ClusterProfile
  size : ℕ
  percentage : ℚ

/-- The loop body of lines 64-76 for one cluster id. -/
def cluster_info (rows : List (FeatureVector × ℤ)) (cluster_id : ℤ) :
    ClusterInfo :=
  let cluster_data := cluster_rows rows cluster_id
  { means := column_mean cluster_data
    description := create_cluster_description cluster_id
      (column_mean cluster_data)
    size := cluster_data.length
    percentage := (cluster_data.length : ℚ) / rows.length * 100 }

/-- The `cluster_analysis` dict built by `for cluster_id in range(2)`
(lines 62-78), as an association list keyed by cluster id. -/
def load_data_and_analyze_clusters (rows : List (FeatureVector × ℤ)) :
    List (ℤ × ClusterInfo) :=
  (List.range 2).map (fun i => ((i : ℤ), cluster_info rows (i : ℤ)))

/-! ### Log transform (lines 42-50 and 293-301)

`np.log(1 + v)` is total over floats: it returns a NaN for `1 + v < 0` and
`-inf` for `1 + v == 0`, and raises no exception; `NpLogVal` models this
codomain.  Values of the data are rationals; only the log payload lives
in ℝ. -/

/-- Codomain of `np.log` over floats: an ordinary real result, `-inf`,
or NaN. -/
inductive NpLogVal where
  | real (x : ℝ)
  | neginf
  | nan

/-- `np.log(1 + v)` (lines 50 and 301): no guard, no exception; a NaN
result (with a runtime warning only) when `1 + v < 0` and `-inf` when
`1 + v == 0`. -/
noncomputable def np_log1p (v : ℚ) : NpLogVal :=
  if -1 < v then NpLogVal.real (Real.log (1 + (v : ℝ)))
  else if v = -1 then NpLogVal.neginf
  else NpLogVal.nan

/-- `cols_log` of the dataset-wide analysis path, source lines 43-46. -/
def cols_log : List FieldName :=
  [FieldName.BALANCE, FieldName.ONEOFF_PURCHASES,
   FieldName.INSTALLMENTS_PURCHASES, FieldName.CASH_ADVANCE,
   FieldName.ONEOFF_PURCHASES_FREQUENCY,
   FieldName.PURCHASES_INSTALLMENTS_FREQUENCY,
   FieldName.CASH_ADVANCE_TRX, FieldName.PURCHASES_TRX,
   FieldName.CREDIT_LIMIT, FieldName.PAYMENTS,
   FieldName.MINIMUM_PAYMENTS, FieldName.PRC_FULL_PAYMENT]

/-- `cols_log` of the per-request inference path, source lines 294-297. -/
def cols_log_inference : List FieldName :=
  [FieldName.BALANCE, FieldName.ONEOFF_PURCHASES,
   FieldName.INSTALLMENTS_PURCHASES, FieldName.CASH_ADVANCE,
   FieldName.ONEOFF_PURCHASES_FREQUENCY,
   FieldName.PURCHASES_INSTALLMENTS_FREQUENCY,
   FieldName.CASH_ADVANCE_TRX, FieldName.PURCHASES_TRX,
   FieldName.CREDIT_LIMIT, FieldName.PAYMENTS,
   FieldName.MINIMUM_PAYMENTS, FieldName.PRC_FULL_PAYMENT]

/-- The loop of lines 48-50: `df_log[col] = np.log(1 + df_log[col])` for the
columns of `cols_log`, all other columns copied unchanged from `df.copy()`. -/
noncomputable def log_transform (v : FeatureVector) : FieldName → NpLogVal :=
  fun f => if f ∈ cols_log then np_log1p (v f) else NpLogVal.real ((v f : ℝ))

/-- The loop of lines 299-301, identical in form but reading the
`cols_log` list re-declared at lines 294-297 on the inference path. -/
noncomputable def log_transform_inference (v : FeatureVector) :
    FieldName → NpLogVal :=
  fun f =>
    if f ∈ cols_log_inference then np_log1p (v f)
    else NpLogVal.real ((v f : ℝ))

/-! ### Concrete vectors and datasets used by witnesses and counterexamples -/

/-- The all-zero means vector. -/
def means_zero : FeatureVector := fun _ => 0

/-- Means sitting exactly on all six predicate thresholds. -/
def means_boundary : FeatureVector := fun f =>
  match f with
  | FieldName.BALANCE => 1000
  | FieldName.PURCHASES => 1000
  | FieldName.PURCHASES_FREQUENCY => 0.5
  | FieldName.CASH_ADVANCE => 500
  | FieldName.CREDIT_LIMIT => 5000
  | FieldName.PRC_FULL_PAYMENT => 0.3
  | _ => 0

/-- Zero means except for a large CREDIT_LIMIT. -/
def means_zero_high_credit : FeatureVector := fun f =>
  if f = FieldName.CREDIT_LIMIT then 9999 else 0

/-- A one-row dataset whose single row is assigned cluster 0. -/
def rows_single : List (FeatureVector × ℤ) := [(means_zero, 0)]

/-- A two-row dataset with one row in each of clusters 0 and 1. -/
def rows_two : List (FeatureVector × ℤ) := [(means_zero, 0), (means_zero, 1)]

/-! ### Theorems for the claims -/

/-- Claim C1: the decision rule follows the ordered first-match decision
table.  For cluster 0 it returns the "Active solvent customers" profile
(`Активные платежеспособные клиенты`) iff high_purchases ∧ high_frequency ∧
pays_full, the "Active customers using installments" profile
(`Активные клиенты с рассрочкой`) iff high_purchases ∧ high_frequency ∧
¬pays_full, and the "Moderate users" profile (`Умеренные пользователи`)
otherwise.  For cluster 1 it returns the "Cash-advance customers" profile
(`Клиенты с денежными авансами`) iff uses_cash_advance ∧ ¬high_purchases,
else the "Low-activity customers" profile (`Малоактивные клиенты`) iff
¬high_purchases ∧ ¬high_frequency, else the generic "Customers with unusual
behavior" profile (`Клиенты с особым поведением`). -/
theorem decision_table_c0_c1 (m : FeatureVector) :
    ((create_cluster_description 0 m).name = "Активные платежеспособные клиенты" ↔
      high_purchases m ∧ high_frequency m ∧ pays_full m) ∧
    ((create_cluster_description 0 m).name = "Активные клиенты с рассрочкой" ↔
      high_purchases m ∧ high_frequency m ∧ ¬pays_full m) ∧
    ((create_cluster_description 0 m).name = "Умеренные пользователи" ↔
      ¬(high_purchases m ∧ high_frequency m)) ∧
    ((create_cluster_description 1 m).name = "Клиенты с денежными авансами" ↔
      uses_cash_advance m ∧ ¬high_purchases m) ∧
    ((create_cluster_description 1 m).name = "Малоактивные клиенты" ↔
      ¬(uses_cash_advance m ∧ ¬high_purchases m) ∧
        (¬high_purchases m ∧ ¬high_frequency m)) ∧
    ((create_cluster_description 1 m).name = "Клиенты с особым поведением" ↔
      ¬(uses_cash_advance m ∧ ¬high_purchases m) ∧
        ¬(¬high_purchases m ∧ ¬high_frequency m)) := by
  by_cases hp : high_purchases m <;> by_cases hf : high_frequency m <;>
    by_cases pf : pays_full m <;> by_cases ca : uses_cash_advance m <;>
    simp [create_cluster_description, hp, hf, pf, ca]

/-- Claim C8: all six derived predicates use strict inequality, so means
sitting exactly on a threshold do not satisfy the corresponding
predicate. -/
theorem strict_inequality_boundaries (m : FeatureVector) :
    (m FieldName.BALANCE = 1000 → ¬high_balance m) ∧
    (m FieldName.PURCHASES = 1000 → ¬high_purchases m) ∧
    (m FieldName.PURCHASES_FREQUENCY = 0.5 → ¬high_frequency m) ∧
    (m FieldName.CASH_ADVANCE = 500 → ¬uses_cash_advance m) ∧
    (m FieldName.CREDIT_LIMIT = 5000 → ¬high_credit_limit m) ∧
    (m FieldName.PRC_FULL_PAYMENT = 0.3 → ¬pays_full m) := by
  refine ⟨fun h => ?_, fun h => ?_, fun h => ?_, fun h => ?_, fun h => ?_,
    fun h => ?_⟩ <;> simp [high_balance, high_purchases, high_frequency,
      uses_cash_advance, high_credit_limit, pays_full, h]

/-- Witness for C8 at the concrete boundary means vector. -/
theorem strict_inequality_boundaries_witness :
    ¬high_balance means_boundary ∧ ¬high_purchases means_boundary ∧
    ¬high_frequency means_boundary ∧ ¬uses_cash_advance means_boundary ∧
    ¬high_credit_limit means_boundary ∧ ¬pays_full means_boundary :=
  ⟨(strict_inequality_boundaries means_boundary).1 rfl,
   (strict_inequality_boundaries means_boundary).2.1 rfl,
   (strict_inequality_boundaries means_boundary).2.2.1 rfl,
   (strict_inequality_boundaries means_boundary).2.2.2.1 rfl,
   (strict_inequality_boundaries means_boundary).2.2.2.2.1 rfl,
   (strict_inequality_boundaries means_boundary).2.2.2.2.2 rfl⟩

/-- Claim C9: the branch selected by the decision rule does not depend on
means[CREDIT_LIMIT]; two means mappings agreeing everywhere else yield the
same profile name and the same key-feature tags (the narrative of the
cash-advance branch does interpolate CREDIT_LIMIT, but name and tags are
unaffected). -/
theorem classify_independent_of_credit_limit (cluster_id : ℤ)
    (m₁ m₂ : FeatureVector)
    (h : ∀ f, f ≠ FieldName.CREDIT_LIMIT → m₁ f = m₂ f) :
    (create_cluster_description cluster_id m₁).name =
      (create_cluster_description cluster_id m₂).name ∧
    (create_cluster_description cluster_id m₁).key_features =
      (create_cluster_description cluster_id m₂).key_features := by
  have hB : m₁ FieldName.BALANCE = m₂ FieldName.BALANCE := h _ (by decide)
  have hP : m₁ FieldName.PURCHASES = m₂ FieldName.PURCHASES := h _ (by decide)
  have hF : m₁ FieldName.PURCHASES_FREQUENCY =
      m₂ FieldName.PURCHASES_FREQUENCY := h _ (by decide)
  have hC : m₁ FieldName.CASH_ADVANCE = m₂ FieldName.CASH_ADVANCE :=
    h _ (by decide)
  have hCF : m₁ FieldName.CASH_ADVANCE_FREQUENCY =
      m₂ FieldName.CASH_ADVANCE_FREQUENCY := h _ (by decide)
  have hPF : m₁ FieldName.PRC_FULL_PAYMENT = m₂ FieldName.PRC_FULL_PAYMENT :=
    h _ (by decide)
  by_cases h0 : cluster_id = 0 <;> by_cases hp : high_purchases m₂ <;>
    by_cases hf : high_frequency m₂ <;> by_cases pf : pays_full m₂ <;>
    by_cases ca : uses_cash_advance m₂ <;>
    simp [create_cluster_description, h0, hp, hf, pf, ca, hB, hP, hF, hC,
      hCF, hPF]

/-- Witness for C9: zero means against zero means with CREDIT_LIMIT 9999. -/
theorem classify_independent_of_credit_limit_witness :
    (create_cluster_description 0 means_zero).name =
      (create_cluster_description 0 means_zero_high_credit).name ∧
    (create_cluster_description 0 means_zero).key_features =
      (create_cluster_description 0 means_zero_high_credit).key_features :=
  classify_independent_of_credit_limit 0 means_zero means_zero_high_credit
    (fun f hf => by simp [means_zero, means_zero_high_credit, hf])

/-- Claim C10: the decision rule is total over integer cluster ids: it always
returns a profile with a nonempty name and nonempty key-feature tags, and
every cluster id other than 0 is routed through the cluster-1 branch
table. -/
theorem classify_total_over_cluster_ids (cluster_id : ℤ) (m : FeatureVector) :
    (create_cluster_description cluster_id m).name ≠ "" ∧
    (create_cluster_description cluster_id m).key_features ≠ [] ∧
    (cluster_id ≠ 0 →
      create_cluster_description cluster_id m =
        create_cluster_description 1 m) := by
  refine ⟨?_, ?_, fun h0 => ?_⟩
  · unfold create_cluster_description
    split_ifs <;> simp
  · unfold create_cluster_description
    split_ifs <;> simp
  · unfold create_cluster_description
    rw [if_neg h0, if_neg one_ne_zero]

/-- Witness for C10 at cluster id 2 and the zero means vector. -/
theorem classify_total_over_cluster_ids_witness :
    (create_cluster_description 2 means_zero).name ≠ "" ∧
    (create_cluster_description 2 means_zero).key_features ≠ [] ∧
    create_cluster_description 2 means_zero =
      create_cluster_description 1 means_zero :=
  ⟨(classify_total_over_cluster_ids 2 means_zero).1,
   (classify_total_over_cluster_ids 2 means_zero).2.1,
   (classify_total_over_cluster_ids 2 means_zero).2.2 (by decide)⟩

/-- Claim C2 (evaluation at the failing input): the log transform applies
`np.log(1 + v)` with no guard, so a cols_log field with value `-2 < -1`
yields a NaN in the transformed frame and no error is raised; the
spec-required `InvalidInputError` does not exist in the code. -/
theorem log_transform_invalid_is_nan :
    log_transform (fun _ => -2) FieldName.BALANCE = NpLogVal.nan := by
  have hmem : FieldName.BALANCE ∈ cols_log := by decide
  simp only [log_transform, if_pos hmem, np_log1p]
  rw [if_neg (by norm_num), if_neg (by norm_num)]

/-- Counterexample to claim C3 as stated: at cluster id 2 the decision rule
does not raise a lookup error; it takes the shared else-branch and returns
the defined "Low-activity customers" profile of the cluster-1 table. -/
theorem cluster_two_returns_profile :
    (create_cluster_description 2 means_zero).name = "Малоактивные клиенты" ∧
    create_cluster_description 2 means_zero =
      create_cluster_description 1 means_zero := by
  constructor <;> norm_num [create_cluster_description, means_zero]

/-- Claim C3 as amended: for cluster ids ≥ 2 the decision rule itself falls
into the else-branch shared with cluster 1 and returns one of the cluster-1
profiles; the lookup error arises only at the `cluster_analysis` mapping,
which has entries exactly for ids 0 and 1, so a lookup of an id ≥ 2 there
finds nothing. -/
theorem cluster_ge_two_via_cluster_one (cluster_id : ℤ) (m : FeatureVector)
    (rows : List (FeatureVector × ℤ)) (h : 2 ≤ cluster_id) :
    create_cluster_description cluster_id m =
      create_cluster_description 1 m ∧
    (load_data_and_analyze_clusters rows).lookup cluster_id = none := by
  constructor
  · unfold create_cluster_description
    rw [if_neg (by omega), if_neg one_ne_zero]
  · have hL : load_data_and_analyze_clusters rows =
        [((0 : ℤ), cluster_info rows 0), ((1 : ℤ), cluster_info rows 1)] :=
      rfl
    have h0 : (cluster_id == (0 : ℤ)) = false := by
      simp only [beq_eq_false_iff_ne]; omega
    have h1 : (cluster_id == (1 : ℤ)) = false := by
      simp only [beq_eq_false_iff_ne]; omega
    rw [hL]
    simp [List.lookup, h0, h1]

/-- Witness for the amended C3 at cluster id 2 over a one-row dataset. -/
theorem cluster_ge_two_via_cluster_one_witness :
    create_cluster_description 2 means_zero =
      create_cluster_description 1 means_zero ∧
    (load_data_and_analyze_clusters rows_single).lookup 2 = none :=
  cluster_ge_two_via_cluster_one 2 means_zero rows_single (by decide)

/-- Counterexample to claim C4 as stated: in a dataset whose only row is
assigned cluster 0, cluster 1 has zero rows, yet the analysis mapping still
contains an entry for id 1 (with size 0) instead of omitting it. -/
theorem empty_cluster_still_has_entry :
    ((load_data_and_analyze_clusters rows_single).lookup 1).isSome = true ∧
    (cluster_info rows_single 1).size = 0 := by
  exact ⟨rfl, rfl⟩

/-- Claim C4 as amended: for every non-empty dataset the analysis mapping
contains an entry for each of the ids 0 and 1 — even for an id with zero
assigned rows, whose entry then has size 0 — and contains no entry for any
other id, so only lookups of ids outside {0, 1} fail. -/
theorem analysis_keys_are_zero_one (rows : List (FeatureVector × ℤ))
    (_hne : rows ≠ []) :
    ((load_data_and_analyze_clusters rows).lookup 0).isSome = true ∧
    ((load_data_and_analyze_clusters rows).lookup 1).isSome = true ∧
    (∀ cluster_id : ℤ, cluster_id ≠ 0 → cluster_id ≠ 1 →
      (load_data_and_analyze_clusters rows).lookup cluster_id = none) ∧
    (cluster_rows rows 1 = [] → (cluster_info rows 1).size = 0) := by
  have hL : load_data_and_analyze_clusters rows =
      [((0 : ℤ), cluster_info rows 0), ((1 : ℤ), cluster_info rows 1)] := rfl
  refine ⟨by rw [hL]; rfl, by rw [hL]; rfl, ?_, ?_⟩
  · intro cluster_id h0 h1
    have e0 : (cluster_id == (0 : ℤ)) = false := beq_eq_false_iff_ne.mpr h0
    have e1 : (cluster_id == (1 : ℤ)) = false := beq_eq_false_iff_ne.mpr h1
    rw [hL]
    simp [List.lookup, e0, e1]
  · intro he
    show (cluster_rows rows 1).length = 0
    rw [he]
    rfl

/-- Witness for the amended C4 over the one-row dataset: both entries exist,
id 5 has none, and the empty cluster 1 has size 0. -/
theorem analysis_keys_are_zero_one_witness :
    ((load_data_and_analyze_clusters rows_single).lookup 0).isSome = true ∧
    (load_data_and_analyze_clusters rows_single).lookup 5 = none ∧
    (cluster_info rows_single 1).size = 0 :=
  ⟨(analysis_keys_are_zero_one rows_single (by simp [rows_single])).1,
   (analysis_keys_are_zero_one rows_single (by simp [rows_single])).2.2.1 5
     (by decide) (by decide),
   (analysis_keys_are_zero_one rows_single (by simp [rows_single])).2.2.2 rfl⟩

/-- Helper: when every row carries cluster id 0 or 1, the two filtered groups
partition the dataset. -/
lemma length_filter_zero_one :
    ∀ rows : List (FeatureVector × ℤ),
      (∀ r ∈ rows, r.2 = 0 ∨ r.2 = 1) →
      (rows.filter (fun r => r.2 == (0 : ℤ))).length +
        (rows.filter (fun r => r.2 == (1 : ℤ))).length = rows.length := by
  intro rows
  induction rows with
  | nil => intro _; rfl
  | cons a t ih =>
    intro hall
    have iht := ih (fun r hr => hall r (List.mem_cons_of_mem a hr))
    rcases hall a (List.mem_cons_self a t) with h | h <;>
      simp [List.filter_cons, h] <;> omega

/-- Claim C5: over a non-empty dataset whose rows are all assigned cluster 0
or 1, the two profile sizes sum exactly to the dataset row count, each
percentage equals 100 × size / total, and the two percentages sum to 100
(exactly, over ℚ). -/
theorem sizes_and_percentages_sum (rows : List (FeatureVector × ℤ))
    (hne : rows ≠ []) (hall : ∀ r ∈ rows, r.2 = 0 ∨ r.2 = 1) :
    (cluster_info rows 0).size + (cluster_info rows 1).size = rows.length ∧
    (∀ cluster_id : ℤ, (cluster_info rows cluster_id).percentage =
      100 * ((cluster_info rows cluster_id).size : ℚ) / rows.length) ∧
    (cluster_info rows 0).percentage + (cluster_info rows 1).percentage
      = 100 := by
  have hs0 : (cluster_info rows 0).size =
      (rows.filter (fun r => r.2 == (0 : ℤ))).length := by
    simp [cluster_info, cluster_rows]
  have hs1 : (cluster_info rows 1).size =
      (rows.filter (fun r => r.2 == (1 : ℤ))).length := by
    simp [cluster_info, cluster_rows]
  have hsum : (cluster_info rows 0).size + (cluster_info rows 1).size
      = rows.length := by
    rw [hs0, hs1]; exact length_filter_zero_one rows hall
  have hperc : ∀ cluster_id : ℤ, (cluster_info rows cluster_id).percentage =
      100 * ((cluster_info rows cluster_id).size : ℚ) / rows.length := by
    intro cluster_id
    show ((cluster_rows rows cluster_id).length : ℚ) / rows.length * 100 = _
    show _ = 100 * ((cluster_rows rows cluster_id).length : ℚ) / rows.length
    ring
  refine ⟨hsum, hperc, ?_⟩
  have hn : ((rows.length : ℚ)) ≠ 0 := by
    have : rows.length ≠ 0 := fun h => hne (List.length_eq_zero.mp h)
    exact_mod_cast this
  rw [hperc 0, hperc 1]
  have hcast : ((cluster_info rows 0).size : ℚ) +
      ((cluster_info rows 1).size : ℚ) = (rows.length : ℚ) := by
    exact_mod_cast congrArg (Nat.cast : ℕ → ℚ) hsum
  field_simp
  linarith [hcast]

/-- Witness for C5 over the two-row dataset with one row in each cluster. -/
theorem sizes_and_percentages_sum_witness :
    (cluster_info rows_two 0).size + (cluster_info rows_two 1).size =
      rows_two.length ∧
    (cluster_info rows_two 0).percentage =
      100 * ((cluster_info rows_two 0).size : ℚ) / rows_two.length ∧
    (cluster_info rows_two 0).percentage +
      (cluster_info rows_two 1).percentage = 100 :=
  ⟨(sizes_and_percentages_sum rows_two (by simp [rows_two])
      (by decide)).1,
   (sizes_and_percentages_sum rows_two (by simp [rows_two])
      (by decide)).2.1 0,
   (sizes_and_percentages_sum rows_two (by simp [rows_two])
      (by decide)).2.2⟩

/-- Claim C6: for a feature vector with all fields ≥ 0, the log transform
leaves every field outside cols_log bit-identical to its input, maps every
cols_log field to ln(1 + v), and the complement of cols_log is exactly the
five fields PURCHASES, BALANCE_FREQUENCY, PURCHASES_FREQUENCY,
CASH_ADVANCE_FREQUENCY, TENURE. -/
theorem log_transform_frame (v : FeatureVector) (h : ∀ f, 0 ≤ v f) :
    (∀ f, f ∉ cols_log → log_transform v f = NpLogVal.real ((v f : ℝ))) ∧
    (∀ f, f ∈ cols_log →
      log_transform v f = NpLogVal.real (Real.log (1 + (v f : ℝ)))) ∧
    (∀ f, f ∉ cols_log ↔
      (f = FieldName.PURCHASES ∨ f = FieldName.BALANCE_FREQUENCY ∨
       f = FieldName.PURCHASES_FREQUENCY ∨
       f = FieldName.CASH_ADVANCE_FREQUENCY ∨ f = FieldName.TENURE)) := by
  refine ⟨?_, ?_, ?_⟩
  · intro f hf
    simp [log_transform, hf]
  · intro f hf
    have hv : (-1 : ℚ) < v f := lt_of_lt_of_le (by norm_num) (h f)
    simp [log_transform, hf, np_log1p, hv]
  · intro f
    cases f <;> decide

/-- Witness for C6: the all-zero vector passes TENURE through unchanged. -/
theorem log_transform_frame_witness :
    log_transform means_zero FieldName.TENURE =
      NpLogVal.real ((means_zero FieldName.TENURE : ℝ)) :=
  (log_transform_frame means_zero (fun _ => le_refl 0)).1 FieldName.TENURE
    (by decide)

/-- Claim C7: the cols_log list re-declared on the per-request inference path
is identical to the one of the dataset-wide analysis path, so the two log
transforms are the same function on every feature vector. -/
theorem cols_log_paths_agree :
    cols_log_inference = cols_log ∧
    ∀ v : FeatureVector, log_transform_inference v = log_transform v :=
  ⟨rfl, fun _ => rfl⟩
